import Mathlib

/-
Verification of the M10 ledger engine (Rust, `src/server/src/main.rs`,
`src/client/src/main.rs`, `src/protos/src/lib.rs`) against its
natural-language specification.

The engine is embedded shallowly:
* protobuf messages become Lean structures with the generated field names;
* the `HashMap<Vec<u8>, Account>` account store becomes an association list
  `AccountMap` with `mapGet` / `mapInsert` / `mapModify` mirroring
  `HashMap::get`, `HashMap::insert` (which replaces an existing value) and
  `HashMap::get_mut` followed by a field write;
* `u64` values are `Nat` with explicit `2 ^ 64` bounds where overflow matters
  (`checked_sub` / `checked_add` are Rust's checked arithmetic);
* `tonic::Status` transport errors become the `GrpcStatus` inductive (the
  handlers only ever construct `Status::not_found`), so every handler returns
  `Except GrpcStatus` of its response (paired with the resulting account map,
  making the mutation of the shared store explicit);
* the secp256k1 calls (key generation, public-key / message / signature
  parsing and ECDSA verification) are an external library; key generation is
  externalized as an input keypair and the verification chain's combined
  outcome as a `sigValid : Bool` input. Every failure inside that chain maps
  to `InvalidSignature` in the source, which the embedding preserves.
-/

namespace M10

/-- Account identities travel as raw byte vectors (`Vec<u8>`); a byte is a `Nat`
below `256`, and nothing in the engine inspects the bytes beyond equality. -/
abbrev AccountId := List Nat

/-- The `Account` protobuf message as used by the server: identity bytes,
display name, unsigned 64-bit balance and the frozen flag. -/
structure Account where
  id : AccountId
  name : String
  balance : Nat
  is_frozen : Bool
deriving Repr, DecidableEq

/-- The `Transfer` protobuf message: source and destination identity bytes,
unsigned 64-bit amount and nonce, and the compact-encoded signature bytes. -/
structure Transfer where
  from_account : AccountId
  to_account : AccountId
  amount : Nat
  signature : List Nat
  nonce : Nat
deriving Repr, DecidableEq

/-- Modelled from the spec: the `transfer_error.Code` protobuf enum (the
generated protobuf module is not part of the source snapshot; the spec lists
the tagged outcomes AccountNotFound, FrozenAccount, InvalidSignature,
InsufficientBalance, BalanceOverflow, Unknown). The server constructs every
variant except `Unknown`. -/
inductive Code where
  | Unknown
  | AccountNotFound
  | FrozenAccount
  | InvalidSignature
  | InsufficientBalance
  | BalanceOverflow
deriving Repr, DecidableEq

/-- The `TransferError` protobuf message: a tagged code plus a human-readable
message, exactly as the server builds it. -/
structure TransferError where
  code : Code
  message : String
deriving Repr, DecidableEq

/-- The `TransferResult` protobuf message: `error` is `none` on success and
carries the typed `TransferError` on a domain failure. -/
structure TransferResult where
  error : Option TransferError
deriving Repr, DecidableEq

/-- The `FreezeAccountResponse` protobuf message. -/
structure FreezeAccountResponse where
  success : Bool
  message : String
deriving Repr, DecidableEq

/-- The `UnfreezeAccountResponse` protobuf message. -/
structure UnfreezeAccountResponse where
  success : Bool
  message : String
deriving Repr, DecidableEq

/-- The `CreateAccountResponse` protobuf message: the created account and the
one-time private key bytes handed back to the caller. -/
structure CreateAccountResponse where
  account : Option Account
  private_key : List Nat
deriving Repr, DecidableEq

/-- Modelled from the spec: one history `Action` entry (action kind as its wire
integer, timestamp, source and destination identity, amount) — the fields the
client's `display_action` reads. The server's stub never constructs one. -/
structure Action where
  action_type : Nat
  timestamp : Nat
  source : AccountId
  dest : AccountId
  sum : Nat
deriving Repr, DecidableEq

/-- The `GetHistoryResponse` protobuf message: a list of history actions. -/
structure GetHistoryResponse where
  actions : List Action
deriving Repr, DecidableEq

/-- The `tonic::Status` values the handlers construct: only
`Status::not_found(message)` ever appears. An `Except.error (GrpcStatus ...)`
is a transport-level failure of the RPC, as opposed to a well-formed
`TransferResult` carrying a domain error. -/
inductive GrpcStatus where
  | notFound (message : String)
deriving Repr, DecidableEq

/-- The shared account store `HashMap<Vec<u8>, Account>`, embedded as an
association list from identity bytes to account records. -/
abbrev AccountMap := List (AccountId × Account)

/-- `HashMap::get`: the value at the first entry whose key matches. -/
def mapGet (m : AccountMap) (k : AccountId) : Option Account :=
  match m with
  | [] => none
  | (k', a) :: rest => if k' = k then some a else mapGet rest k

/-- `HashMap::insert`: replaces the value of an existing key, appends a fresh
entry otherwise. Note the replacement is silent — the previous value is lost. -/
def mapInsert (m : AccountMap) (k : AccountId) (a : Account) : AccountMap :=
  match m with
  | [] => [(k, a)]
  | (k', a') :: rest => if k' = k then (k', a) :: rest else (k', a') :: mapInsert rest k a

/-- `HashMap::get_mut` followed by a field write: rewrites the value at key `k`
through `f`, leaving the map unchanged when the key is absent. -/
def mapModify (m : AccountMap) (k : AccountId) (f : Account → Account) : AccountMap :=
  match m with
  | [] => []
  | (k', a) :: rest => if k' = k then (k', f a) :: rest else (k', a) :: mapModify rest k f

/-- Rust `u64::checked_sub`: `none` exactly when the subtraction would
underflow below zero. -/
def checked_sub (a b : Nat) : Option Nat :=
  if b ≤ a then some (a - b) else none

/-- Rust `u64::checked_add`: `none` exactly when the sum would wrap past
`2 ^ 64 - 1`. -/
def checked_add (a b : Nat) : Option Nat :=
  if a + b < 2 ^ 64 then some (a + b) else none

/-- Rust `u64::to_le_bytes`: the eight little-endian bytes of a 64-bit value. -/
def u64_le_bytes (n : Nat) : List Nat :=
  [n % 256, n / 256 % 256, n / 256 ^ 2 % 256, n / 256 ^ 3 % 256,
   n / 256 ^ 4 % 256, n / 256 ^ 5 % 256, n / 256 ^ 6 % 256, n / 256 ^ 7 % 256]

/-- `Ledger::create_transfer_message_hash`, up to the final SHA-256 call: the
byte sequence the server hashes and verifies the signature against. The source
appends the source identity, the destination identity and the amount's
little-endian bytes — and nothing else. -/
def create_transfer_message (t : Transfer) : List Nat :=
  t.from_account ++ t.to_account ++ u64_le_bytes t.amount

/-- The client's `Cmd::Transfer` arm, up to the SHA-256 call: the byte sequence
the client hashes and signs — source identity, destination identity, amount's
little-endian bytes, then the nonce's little-endian bytes. -/
def client_signed_message (source dest : List Nat) (amount nonce : Nat) : List Nat :=
  source ++ dest ++ u64_le_bytes amount ++ u64_le_bytes nonce

/-- Modelled from the spec: the canonical signed byte sequence — source
identity bytes, destination identity bytes, amount as 8 little-endian bytes,
nonce as 8 little-endian bytes. -/
def spec_canonical_message (source dest : List Nat) (amount nonce : Nat) : List Nat :=
  source ++ dest ++ u64_le_bytes amount ++ u64_le_bytes nonce

/-- The `freeze_account` handler: not-found is a transport error; freezing an
already-frozen account reports `success = false` without mutating; otherwise
the flag is set. Returns the response together with the resulting store. -/
def freeze_account (accounts : AccountMap) (id : AccountId) :
    Except GrpcStatus (FreezeAccountResponse × AccountMap) :=
  match mapGet accounts id with
  | none => .error (.notFound "Account not found")
  | some account =>
    if account.is_frozen then
      .ok ({ success := false, message := "Account is already frozen" }, accounts)
    else
      .ok ({ success := true, message := "Account has been frozen" },
        mapModify accounts id (fun a => { a with is_frozen := true }))

/-- The `unfreeze_account` handler, symmetric to `freeze_account`. -/
def unfreeze_account (accounts : AccountMap) (id : AccountId) :
    Except GrpcStatus (UnfreezeAccountResponse × AccountMap) :=
  match mapGet accounts id with
  | none => .error (.notFound "Account not found")
  | some account =>
    if account.is_frozen then
      .ok ({ success := true, message := "Account has been unfrozen" },
        mapModify accounts id (fun a => { a with is_frozen := false }))
    else
      .ok ({ success := false, message := "Account is not frozen" }, accounts)

/-- The `create_account` handler. Key generation is external randomness, so the
generated keypair (`secret_key` bytes, serialized `public_key` bytes) is an
input. The source inserts unconditionally with `HashMap::insert` — there is no
occupancy check and the return type admits no failure. -/
def create_account (accounts : AccountMap) (name : String) (balance : Nat)
    (secret_key public_key : List Nat) : CreateAccountResponse × AccountMap :=
  let account : Account := { id := public_key, name := name, balance := balance, is_frozen := false }
  ({ account := some account, private_key := secret_key },
   mapInsert accounts account.id account)

/-- The `get_account` handler: a lookup whose absence case is the transport
error `Status::not_found`. -/
def get_account (accounts : AccountMap) (id : AccountId) : Except GrpcStatus Account :=
  match mapGet accounts id with
  | some a => .ok a
  | none => .error (.notFound "Account not found")

/-- `Ledger::verify_transfer_conditions`: frozen-source check, then
frozen-destination check, then the secp256k1 verification chain, whose four
failure points (public-key parse, message parse, signature parse, ECDSA
verify) all map to `InvalidSignature`; `sigValid` is that chain's combined
outcome. Pure validation — it never touches the store. -/
def verify_transfer_conditions (from_account to_account : Account) (sigValid : Bool) :
    Except TransferError Unit :=
  if from_account.is_frozen then
    .error { code := .FrozenAccount, message := "From account is frozen" }
  else if to_account.is_frozen then
    .error { code := .FrozenAccount, message := "To account is frozen" }
  else if sigValid then
    .ok ()
  else
    .error { code := .InvalidSignature, message := "Invalid signature" }

/-- `Ledger::update_balances`: computes both new balances with checked
arithmetic from the pre-read snapshots, then writes them back through
`get_mut` one key at a time. The Rust function mutates the map through the
mutex guard, so the embedding returns the resulting map in every case —
including the error cases, where the source may already have written the
debit leg before the credit-side lookup fails. -/
def update_balances (t : Transfer) (accounts : AccountMap)
    (from_account to_account : Account) : Except TransferError Unit × AccountMap :=
  match checked_sub from_account.balance t.amount with
  | none => (.error { code := .InsufficientBalance, message := "Insufficient balance" }, accounts)
  | some new_from_balance =>
    match checked_add to_account.balance t.amount with
    | none => (.error { code := .BalanceOverflow, message := "Balance overflow" }, accounts)
    | some new_to_balance =>
      match mapGet accounts t.from_account with
      | none => (.error { code := .AccountNotFound, message := "From account not found" }, accounts)
      | some _ =>
        let accounts1 := mapModify accounts t.from_account
          (fun a => { a with balance := new_from_balance })
        match mapGet accounts1 t.to_account with
        | none => (.error { code := .AccountNotFound, message := "To account not found" }, accounts1)
        | some _ =>
          (.ok (), mapModify accounts1 t.to_account
            (fun a => { a with balance := new_to_balance }))

/-- The `create_transfer` handler: reads both accounts through `get_account`
(whose `?` operator propagates `Status::not_found` as a transport error),
runs `verify_transfer_conditions`, and on success applies `update_balances`;
a domain `TransferError` from either step is wrapped in a well-formed
`TransferResult`. The message hash feeds only the signature verification,
abstracted by `sigValid`. -/
def create_transfer (accounts : AccountMap) (t : Transfer) (sigValid : Bool) :
    Except GrpcStatus (TransferResult × AccountMap) :=
  match get_account accounts t.from_account with
  | .error s => .error s
  | .ok from_account =>
    match get_account accounts t.to_account with
    | .error s => .error s
    | .ok to_account =>
      match verify_transfer_conditions from_account to_account sigValid with
      | .error err => .ok ({ error := some err }, accounts)
      | .ok _ =>
        match update_balances t accounts from_account to_account with
        | (.error err, accounts1) => .ok ({ error := some err }, accounts1)
        | (.ok _, accounts1) => .ok ({ error := none }, accounts1)

/-- The `get_history` handler as written: it ignores the request entirely and
answers every query — known identity or not — with an empty action list. -/
def get_history (_accounts : AccountMap) (_id : AccountId) (_limit : Nat) :
    Except GrpcStatus GetHistoryResponse :=
  .ok { actions := [] }

/-! ### Operation sequences over the engine (for the reachable-state
invariant): each constructor is one mutating request with its external
inputs (the generated keypair for CreateAccount, the signature-verification
outcome for Transfer). -/

/-- One mutating engine request together with its externally supplied inputs. -/
inductive Op where
  | createAccount (name : String) (balance : Nat) (secret_key public_key : List Nat)
  | transfer (t : Transfer) (sigValid : Bool)
  | freeze (id : AccountId)
  | unfreeze (id : AccountId)
deriving Repr, DecidableEq

/-- The account store after serving one request; a transport-level failure
leaves the store untouched (the handlers return before mutating in that
case). -/
def applyOp (accounts : AccountMap) : Op → AccountMap
  | .createAccount name balance sk pk => (create_account accounts name balance sk pk).2
  | .transfer t sigValid =>
    match create_transfer accounts t sigValid with
    | .error _ => accounts
    | .ok (_, m) => m
  | .freeze id =>
    match freeze_account accounts id with
    | .error _ => accounts
    | .ok (_, m) => m
  | .unfreeze id =>
    match unfreeze_account accounts id with
    | .error _ => accounts
    | .ok (_, m) => m

/-- The store after serving a sequence of requests in order. -/
def runOps (accounts : AccountMap) (ops : List Op) : AccountMap :=
  ops.foldl applyOp accounts

/-- Well-typedness of a request's wire fields: the initial balance of a
CreateAccount request is a `u64`, hence below `2 ^ 64`. (The other numeric
fields are also `u64`s, but no balance bound depends on them.) -/
def opWF : Op → Bool
  | .createAccount _ balance _ _ => decide (balance < 2 ^ 64)
  | _ => true

/-- Every balance stored in the map lies in the unsigned 64-bit range. -/
def balancesBounded (m : AccountMap) : Prop :=
  ∀ k a, mapGet m k = some a → a.balance < 2 ^ 64

/-! ### Concrete fixtures used by the counterexample and code-bug theorems -/

/-- A one-byte identity used as the source account in concrete scenarios. -/
def idA : AccountId := [1]

/-- A one-byte identity distinct from `idA`, used as the destination. -/
def idB : AccountId := [2]

/-- A source account named "Alice" holding balance 10, not frozen. -/
def accA : Account := { id := idA, name := "Alice", balance := 10, is_frozen := false }

/-- A destination account named "Bob" holding balance 0, not frozen. -/
def accB : Account := { id := idB, name := "Bob", balance := 0, is_frozen := false }

/-- A store holding only `accA`. -/
def storeA : AccountMap := [(idA, accA)]

/-- A store holding `accA` and `accB`. -/
def storeAB : AccountMap := [(idA, accA), (idB, accB)]

/-- A transfer of 5 from `idA` to `idB` with nonce 7. -/
def tAB : Transfer :=
  { from_account := idA, to_account := idB, amount := 5, signature := [], nonce := 7 }

/-- A self-transfer of 5 from `idA` back to `idA`. -/
def tAA : Transfer :=
  { from_account := idA, to_account := idA, amount := 5, signature := [], nonce := 7 }

/-- Alice's account with the frozen flag set. -/
def accAfrozen : Account := { id := idA, name := "Alice", balance := 10, is_frozen := true }

/-- A store where Alice is frozen and Bob is not. -/
def storeFrozenAB : AccountMap := [(idA, accAfrozen), (idB, accB)]

/-- Alice's account with balance 3, smaller than the amount of `tAB`. -/
def accAsmall : Account := { id := idA, name := "Alice", balance := 3, is_frozen := false }

/-- A store where Alice holds 3 and Bob holds 0. -/
def storeSmallAB : AccountMap := [(idA, accAsmall), (idB, accB)]

/-! ### Lookup lemmas for the association-list store -/

theorem mapGet_mapModify (m : AccountMap) (k : AccountId) (f : Account → Account)
    (k' : AccountId) :
    mapGet (mapModify m k f) k' = if k = k' then (mapGet m k).map f else mapGet m k' := by
  induction m with
  | nil => simp [mapModify, mapGet]
  | cons p rest ih =>
    obtain ⟨k'', a⟩ := p
    by_cases h1 : k'' = k
    · subst h1
      by_cases h2 : k'' = k' <;> simp [mapModify, mapGet, h2, ih]
    · by_cases h2 : k'' = k'
      · subst h2
        have hkk : ¬ k = k'' := fun h => h1 h.symm
        simp [mapModify, mapGet, h1, hkk]
      · simp [mapModify, mapGet, h1, h2, ih]

theorem mapGet_mapInsert (m : AccountMap) (k : AccountId) (a : Account)
    (k' : AccountId) :
    mapGet (mapInsert m k a) k' = if k = k' then some a else mapGet m k' := by
  induction m with
  | nil =>
    by_cases h : k = k' <;> simp [mapInsert, mapGet, h]
  | cons p rest ih =>
    obtain ⟨k'', b⟩ := p
    by_cases h1 : k'' = k
    · subst h1
      by_cases h2 : k'' = k' <;> simp [mapInsert, mapGet, h2]
    · by_cases h2 : k'' = k'
      · subst h2
        have hkk : ¬ k = k'' := fun h => h1 h.symm
        simp [mapInsert, mapGet, h1, hkk]
      · simp [mapInsert, mapGet, h1, h2, ih]

theorem get_account_ok (accounts : AccountMap) (id : AccountId) (a : Account)
    (h : get_account accounts id = .ok a) : mapGet accounts id = some a := by
  unfold get_account at h
  cases hm : mapGet accounts id <;> rw [hm] at h
  · exact absurd h (by simp)
  · simpa using h

/-! ### Boundedness lemmas for the reachable-state invariant -/

theorem checked_sub_le (a b c : Nat) (h : checked_sub a b = some c) : c ≤ a := by
  unfold checked_sub at h
  split at h
  · cases h
    omega
  · exact absurd h (by simp)

theorem checked_add_lt (a b c : Nat) (h : checked_add a b = some c) : c < 2 ^ 64 := by
  unfold checked_add at h
  split at h
  · cases h
    omega
  · exact absurd h (by simp)

theorem balancesBounded_mapModify (m : AccountMap) (k : AccountId) (f : Account → Account)
    (hm : balancesBounded m)
    (hf : ∀ a, mapGet m k = some a → (f a).balance < 2 ^ 64) :
    balancesBounded (mapModify m k f) := by
  intro k' a' h'
  rw [mapGet_mapModify] at h'
  by_cases hk : k = k'
  · rw [if_pos hk] at h'
    cases hg : mapGet m k with
    | none =>
      rw [hg] at h'
      exact absurd h' (by simp)
    | some b =>
      rw [hg] at h'
      simp only [Option.map] at h'
      cases h'
      exact hf b hg
  · rw [if_neg hk] at h'
    exact hm k' a' h'

theorem balancesBounded_mapInsert (m : AccountMap) (k : AccountId) (a : Account)
    (hm : balancesBounded m) (ha : a.balance < 2 ^ 64) :
    balancesBounded (mapInsert m k a) := by
  intro k' a' h'
  rw [mapGet_mapInsert] at h'
  by_cases hk : k = k'
  · rw [if_pos hk] at h'
    cases h'
    exact ha
  · rw [if_neg hk] at h'
    exact hm k' a' h'

theorem update_balances_bounded (t : Transfer) (accounts : AccountMap)
    (from_account to_account : Account)
    (hm : balancesBounded accounts) (hfb : from_account.balance < 2 ^ 64) :
    balancesBounded (update_balances t accounts from_account to_account).2 := by
  unfold update_balances
  split
  · exact hm
  next new_from hcs =>
    split
    · exact hm
    next new_to hca =>
      split
      · exact hm
      next a1 hg1 =>
        have hnf : new_from < 2 ^ 64 :=
          Nat.lt_of_le_of_lt (checked_sub_le _ _ _ hcs) hfb
        have hnt : new_to < 2 ^ 64 := checked_add_lt _ _ _ hca
        have hm1 : balancesBounded
            (mapModify accounts t.from_account (fun a => { a with balance := new_from })) :=
          balancesBounded_mapModify _ _ _ hm (fun a _ => hnf)
        dsimp only
        split
        · exact hm1
        next a2 hg2 =>
          exact balancesBounded_mapModify _ _ _ hm1 (fun a _ => hnt)

theorem create_transfer_bounded (accounts : AccountMap) (t : Transfer) (sigValid : Bool)
    (r : TransferResult) (m' : AccountMap)
    (hm : balancesBounded accounts)
    (h : create_transfer accounts t sigValid = .ok (r, m')) :
    balancesBounded m' := by
  unfold create_transfer at h
  split at h
  · exact absurd h (by simp)
  next from_account hf =>
    split at h
    · exact absurd h (by simp)
    next to_account ht =>
      have hfb : from_account.balance < 2 ^ 64 :=
        hm _ _ (get_account_ok _ _ _ hf)
      split at h
      · simp only [Except.ok.injEq, Prod.mk.injEq] at h
        exact h.2 ▸ hm
      next hv =>
        have hub := update_balances_bounded t accounts from_account to_account hm hfb
        split at h
        next err m1 hu =>
          rw [hu] at hub
          simp only [Except.ok.injEq, Prod.mk.injEq] at h
          exact h.2 ▸ hub
        next u m1 hu =>
          rw [hu] at hub
          simp only [Except.ok.injEq, Prod.mk.injEq] at h
          exact h.2 ▸ hub

theorem applyOp_bounded (accounts : AccountMap) (op : Op)
    (hm : balancesBounded accounts) (hwf : opWF op = true) :
    balancesBounded (applyOp accounts op) := by
  cases op with
  | createAccount name balance sk pk =>
    have hb : balance < 2 ^ 64 := by
      simpa [opWF] using hwf
    simp only [applyOp, create_account]
    exact balancesBounded_mapInsert _ _ _ hm hb
  | transfer t sigValid =>
    simp only [applyOp]
    split
    · exact hm
    next r m1 hc =>
      exact create_transfer_bounded accounts t sigValid r m1 hm hc
  | freeze id =>
    simp only [applyOp]
    split
    · exact hm
    next resp m1 hc =>
      unfold freeze_account at hc
      split at hc
      · exact absurd hc (by simp)
      next a hg =>
        split at hc
        · simp only [Except.ok.injEq, Prod.mk.injEq] at hc
          exact hc.2 ▸ hm
        · simp only [Except.ok.injEq, Prod.mk.injEq] at hc
          exact hc.2 ▸ balancesBounded_mapModify _ _ _ hm (fun b hb => hm id b hb)
  | unfreeze id =>
    simp only [applyOp]
    split
    · exact hm
    next resp m1 hc =>
      unfold unfreeze_account at hc
      split at hc
      · exact absurd hc (by simp)
      next a hg =>
        split at hc
        · simp only [Except.ok.injEq, Prod.mk.injEq] at hc
          exact hc.2 ▸ balancesBounded_mapModify _ _ _ hm (fun b hb => hm id b hb)
        · simp only [Except.ok.injEq, Prod.mk.injEq] at hc
          exact hc.2 ▸ hm

theorem runOps_bounded (ops : List Op) (accounts : AccountMap)
    (hm : balancesBounded accounts) (hwf : ∀ op ∈ ops, opWF op = true) :
    balancesBounded (runOps accounts ops) := by
  induction ops generalizing accounts with
  | nil => exact hm
  | cons op rest ih =>
    exact ih (applyOp accounts op)
      (applyOp_bounded accounts op hm (hwf op (by simp)))
      (fun o ho => hwf o (by simp [ho]))

/-! ### C1 — signed-message canonicalization -/

/-- C1: the claim fails on the code. The client (and the spec's canonical
message) signs over source ++ destination ++ amount (8 LE bytes) ++ nonce
(8 LE bytes), but the server's `create_transfer_message_hash` hashes a byte
sequence that omits the nonce, so for the concrete transfer `tAB` the byte
sequence the server verifies against is not the canonical byte sequence the
client signed: verification does not use the canonicalization used at signing
time. -/
theorem C1_server_hash_omits_nonce :
    client_signed_message tAB.from_account tAB.to_account tAB.amount tAB.nonce =
      spec_canonical_message tAB.from_account tAB.to_account tAB.amount tAB.nonce ∧
    create_transfer_message tAB ≠
      spec_canonical_message tAB.from_account tAB.to_account tAB.amount tAB.nonce := by
  constructor
  · rfl
  · decide

/-! ### C2 — conservation on successful transfers -/

/-- C2: the claim fails on the code when source and destination coincide. The
self-transfer `tAA` of amount 5 from the account holding 10 completes
successfully (`error = none`), yet the resulting balance is 15: the credit
write overwrites the debit write, so balance(A) increases by the amount
instead of staying put, and value is created from nothing. -/
theorem C2_self_transfer_creates_value :
    create_transfer storeA tAA true =
      .ok ({ error := none },
        [(idA, { id := idA, name := "Alice", balance := 15, is_frozen := false })]) := by
  rfl

/-! ### C3 — atomicity of the balance-mutation step -/

/-- C3: the claim fails on the code. Running `update_balances` on the store
holding only the source account (the destination snapshot `accB` in hand, but
`idB` absent from the map at mutation time) returns the AccountNotFound error
— yet the returned map already carries the debit: the source balance has been
written down from 10 to 5, so one leg of the transfer is applied even though
the step reports failure. -/
theorem C3_update_balances_partial_application :
    update_balances tAB storeA accA accB =
      (.error { code := .AccountNotFound, message := "To account not found" },
        [(idA, { id := idA, name := "Alice", balance := 5, is_frozen := false })]) := by
  rfl

/-! ### C8 — create conflict check -/

/-- C8: the claim fails on the code. Creating an account when the generated
identity `idA` already names `accA` in the store does not fail with a
conflict — `create_account` cannot fail at all — and the store afterwards
holds the new record in place of the old one: the existing account (Alice,
balance 10) has been silently replaced. -/
theorem C8_create_account_silently_replaces :
    create_account storeA "Bob" 50 [7] idA =
      ({ account := some { id := idA, name := "Bob", balance := 50, is_frozen := false },
         private_key := [7] },
       [(idA, { id := idA, name := "Bob", balance := 50, is_frozen := false })]) := by
  rfl

/-! ### C9 — history queries -/

/-- C9: the claim fails on the code. `get_history` on the identity `idB`,
absent from the store `storeA`, returns the ordinary successful response with
an empty action list — exactly the answer an existing account with no
activity receives — so a caller cannot tell "empty history" apart from "no
such account". -/
theorem C9_get_history_unknown_identity_indistinguishable :
    get_history storeA idB 10 = .ok { actions := [] } ∧
    get_history storeA idA 10 = .ok { actions := [] } ∧
    mapGet storeA idB = none := by
  refine ⟨rfl, rfl, ?_⟩
  decide

/-! ### C4 — missing accounts on the Transfer path -/

/-- C4: the claim fails on the code at a concrete input. For the transfer
`tAB` whose destination `idB` is absent from `storeA`, `create_transfer` does
not return a well-formed `TransferResult` carrying a typed `AccountNotFound`
payload — it propagates the transport-level `Status::not_found` raised by the
internal `get_account` call, an exceptional RPC failure. -/
theorem C4_missing_account_is_transport_error :
    mapGet storeA tAB.to_account = none ∧
    create_transfer storeA tAB true = .error (.notFound "Account not found") := by
  constructor
  · decide
  · rfl

/-- C4 (amended): whenever the source or destination identity of a transfer is
absent from the store, `create_transfer` fails with the transport-level
`Status::not_found` error (no `TransferResult` is produced and the store is
untouched); the typed `AccountNotFound` domain error exists only on the
defensive re-check inside `update_balances`. -/
theorem C4_amended_missing_account_not_found_status (accounts : AccountMap)
    (t : Transfer) (sigValid : Bool)
    (h : mapGet accounts t.from_account = none ∨ mapGet accounts t.to_account = none) :
    create_transfer accounts t sigValid = .error (.notFound "Account not found") := by
  unfold create_transfer get_account
  rcases h with h | h
  · rw [h]
  · cases hf : mapGet accounts t.from_account <;> rw [h]

/-- C4 (amended) at a concrete input: the destination of `tAB` is absent from
`storeA` and the transfer fails with the transport-level not-found status. -/
theorem C4_amended_witness :
    (mapGet storeA tAB.from_account = none ∨ mapGet storeA tAB.to_account = none) ∧
    create_transfer storeA tAB true = .error (.notFound "Account not found") :=
  ⟨Or.inr (by decide),
   C4_amended_missing_account_not_found_status storeA tAB true (Or.inr (by decide))⟩

/-! ### C6 — freeze check precedes signature and balance checks -/

/-- C6: confirmed. When both accounts exist and the source account is frozen,
`create_transfer` answers with the well-formed `TransferResult` carrying the
FrozenAccount error and leaves the store untouched — for every signature
outcome `sigValid` and every pair of balances, because the frozen-source check
in `verify_transfer_conditions` fires before the signature check and before
`update_balances` ever looks at the amounts. -/
theorem C6_frozen_source_yields_frozen_error (accounts : AccountMap) (t : Transfer)
    (sigValid : Bool) (from_account to_account : Account)
    (hfrom : mapGet accounts t.from_account = some from_account)
    (hto : mapGet accounts t.to_account = some to_account)
    (hfz : from_account.is_frozen = true) :
    create_transfer accounts t sigValid =
      .ok ({ error := some { code := .FrozenAccount, message := "From account is frozen" } },
        accounts) := by
  unfold create_transfer get_account verify_transfer_conditions
  rw [hfrom, hto]
  simp [hfz]

/-- C6 at a concrete input: a frozen Alice with an invalid signature still
yields FrozenAccount. -/
theorem C6_witness :
    mapGet storeFrozenAB tAB.from_account = some accAfrozen ∧
    mapGet storeFrozenAB tAB.to_account = some accB ∧
    accAfrozen.is_frozen = true ∧
    create_transfer storeFrozenAB tAB false =
      .ok ({ error := some { code := .FrozenAccount, message := "From account is frozen" } },
        storeFrozenAB) :=
  ⟨by decide, by decide, by decide,
   C6_frozen_source_yields_frozen_error storeFrozenAB tAB false accAfrozen accB
     (by decide) (by decide) (by decide)⟩

/-! ### C7 — insufficient balance -/

/-- C7: confirmed. When both accounts exist, neither is frozen, the signature
verifies, and the amount strictly exceeds the source balance, the transfer
answers with the InsufficientBalance error and returns the store unchanged —
`checked_sub` fails before either balance write, so both balances are left
exactly as they were. -/
theorem C7_insufficient_balance (accounts : AccountMap) (t : Transfer)
    (from_account to_account : Account)
    (hfrom : mapGet accounts t.from_account = some from_account)
    (hto : mapGet accounts t.to_account = some to_account)
    (hffz : from_account.is_frozen = false)
    (htfz : to_account.is_frozen = false)
    (hlt : from_account.balance < t.amount) :
    create_transfer accounts t true =
      .ok ({ error := some { code := .InsufficientBalance, message := "Insufficient balance" } },
        accounts) := by
  have hnot : ¬ t.amount ≤ from_account.balance := by omega
  unfold create_transfer get_account verify_transfer_conditions update_balances checked_sub
  rw [hfrom, hto]
  simp [hffz, htfz, hnot]

/-- C7 at a concrete input: amount 5 against balance 3 yields
InsufficientBalance and the unchanged store. -/
theorem C7_witness :
    mapGet storeSmallAB tAB.from_account = some accAsmall ∧
    mapGet storeSmallAB tAB.to_account = some accB ∧
    accAsmall.is_frozen = false ∧
    accB.is_frozen = false ∧
    accAsmall.balance < tAB.amount ∧
    create_transfer storeSmallAB tAB true =
      .ok ({ error := some { code := .InsufficientBalance, message := "Insufficient balance" } },
        storeSmallAB) :=
  ⟨by decide, by decide, by decide, by decide, by decide,
   C7_insufficient_balance storeSmallAB tAB accAsmall accB (by decide) (by decide)
     (by decide) (by decide) (by decide)⟩

/-! ### C10 — freeze and unfreeze touch only the frozen flag -/

/-- C10: confirmed. On an existing account, `freeze_account` and
`unfreeze_account` return a successful response together with a store where
the requested account differs from its old record at most in `is_frozen`
(its id, name and balance are those of `acc`) and every other identity maps
to exactly what it mapped to before — in the mutating case and in the
already-in-target-state (`success = false`) case alike. -/
theorem C10_freeze_unfreeze_frame (accounts : AccountMap) (id : AccountId) (acc : Account)
    (h : mapGet accounts id = some acc) :
    (∃ r m', freeze_account accounts id = .ok (r, m') ∧
      mapGet m' id = some { acc with is_frozen := true } ∧
      ∀ k, k ≠ id → mapGet m' k = mapGet accounts k) ∧
    (∃ r m', unfreeze_account accounts id = .ok (r, m') ∧
      mapGet m' id = some { acc with is_frozen := false } ∧
      ∀ k, k ≠ id → mapGet m' k = mapGet accounts k) := by
  obtain ⟨aid, aname, abal, afz⟩ := acc
  constructor
  · cases afz
    · refine ⟨{ success := true, message := "Account has been frozen" },
        mapModify accounts id (fun a => { a with is_frozen := true }), ?_, ?_, ?_⟩
      · unfold freeze_account
        rw [h]
        rfl
      · rw [mapGet_mapModify, if_pos rfl, h]
        rfl
      · intro k hk
        rw [mapGet_mapModify, if_neg (fun he => hk he.symm)]
    · refine ⟨{ success := false, message := "Account is already frozen" }, accounts,
        ?_, ?_, ?_⟩
      · unfold freeze_account
        rw [h]
        rfl
      · exact h
      · intro k _
        rfl
  · cases afz
    · refine ⟨{ success := false, message := "Account is not frozen" }, accounts,
        ?_, ?_, ?_⟩
      · unfold unfreeze_account
        rw [h]
        rfl
      · exact h
      · intro k _
        rfl
    · refine ⟨{ success := true, message := "Account has been unfrozen" },
        mapModify accounts id (fun a => { a with is_frozen := false }), ?_, ?_, ?_⟩
      · unfold unfreeze_account
        rw [h]
        rfl
      · rw [mapGet_mapModify, if_pos rfl, h]
        rfl
      · intro k hk
        rw [mapGet_mapModify, if_neg (fun he => hk he.symm)]

/-- C10 at a concrete input: freezing and unfreezing `idA` in `storeAB`
preserves Alice's id, name and balance and leaves Bob's record untouched. -/
theorem C10_witness :
    mapGet storeAB idA = some accA ∧
    ((∃ r m', freeze_account storeAB idA = .ok (r, m') ∧
      mapGet m' idA = some { accA with is_frozen := true } ∧
      ∀ k, k ≠ idA → mapGet m' k = mapGet storeAB k) ∧
    (∃ r m', unfreeze_account storeAB idA = .ok (r, m') ∧
      mapGet m' idA = some { accA with is_frozen := false } ∧
      ∀ k, k ≠ idA → mapGet m' k = mapGet storeAB k)) :=
  ⟨by decide, C10_freeze_unfreeze_frame storeAB idA accA (by decide)⟩

/-! ### C5 — balances stay in the unsigned 64-bit range -/

/-- C5: confirmed. Starting from the empty store (`Ledger::default`), after any
sequence of engine requests — CreateAccount, Transfer, FreezeAccount,
UnfreezeAccount, with well-typed `u64` wire fields — every balance present in
the store is at least 0 and below `2 ^ 64`: `checked_sub` forbids the debit
from underflowing and `checked_add` forbids the credit from wrapping, creation
stores the request's `u64` balance, and freezing never touches balances. -/
theorem C5_balances_within_u64_range (ops : List Op)
    (hwf : ∀ op ∈ ops, opWF op = true) :
    ∀ k a, mapGet (runOps [] ops) k = some a → 0 ≤ a.balance ∧ a.balance < 2 ^ 64 := by
  have hb := runOps_bounded ops [] (fun k a h => by cases h) hwf
  exact fun k a h => ⟨Nat.zero_le _, hb k a h⟩

/-- C5 at a concrete input: a creation, a successful transfer and a freeze in
sequence keep every stored balance within the unsigned 64-bit range. -/
theorem C5_witness :
    (∀ op ∈ [Op.createAccount "Alice" 10 [7] idA, Op.createAccount "Bob" 0 [8] idB,
        Op.transfer tAB true, Op.freeze idA], opWF op = true) ∧
    (∀ k a, mapGet (runOps [] [Op.createAccount "Alice" 10 [7] idA,
        Op.createAccount "Bob" 0 [8] idB, Op.transfer tAB true, Op.freeze idA]) k =
        some a → 0 ≤ a.balance ∧ a.balance < 2 ^ 64) :=
  ⟨by decide,
   C5_balances_within_u64_range
     [Op.createAccount "Alice" 10 [7] idA, Op.createAccount "Bob" 0 [8] idB,
      Op.transfer tAB true, Op.freeze idA] (by decide)⟩

end M10
